import Mathlib

/-!
Shallow embedding of the agentic RAG decision workflow from
`src/agentic_rag.py` (class `AgenticRAG`), together with proofs about the
query classifier, the retrieval coordinator, the quality gate, the answer
synthesizer and the workflow engine.

External services (the Groq LLM, the ChromaDB vector store and the
sentence-transformer embedding model) are modelled as oracle inputs: the
classifier response string, the corpus document count, the documents and
cosine distances returned by the nearest-neighbor query, and the answer
produced by the completion call. Python floats are modelled as rationals.
-/

/-- The `AgentState` TypedDict that flows through the agent workflow
(`src/agentic_rag.py`, lines 25-36). -/
structure AgentState where
  query : String
  query_type : String
  needs_retrieval : Bool
  needs_web_search : Bool
  retrieved_docs : List String
  web_results : List String
  answer : String
  confidence : ℚ
  reasoning : String
  iteration : Nat
deriving Repr, DecidableEq

namespace AgenticRAG

/-- Whitespace stripped by Python `str.strip()`. -/
def isPySpace (c : Char) : Bool :=
  c = ' ' || c = '\t' || c = '\n' || c = '\x0d' || c = '\x0b' || c = '\x0c'

/-- ASCII lowercasing of one character, as Python `str.lower()` acts on the
ASCII range (the classifier labels are ASCII). -/
def lowerChar (c : Char) : Char :=
  if c.toNat ≥ 65 ∧ c.toNat ≤ 90 then Char.ofNat (c.toNat + 32) else c

/-- Normalization applied to the classifier LLM response:
`response.choices[0].message.content.strip().lower()` (line 107). -/
def normalizeLabel (response : String) : String :=
  String.mk ((((response.data.dropWhile isPySpace).reverse.dropWhile
    isPySpace).reverse).map lowerChar)

/-- NODE 1 `analyze_query` (lines 76-128). The LLM call is modelled by the
oracle argument `response`, the raw content of the completion. -/
def analyze_query (response : String) (state : AgentState) : AgentState :=
  let query_type := normalizeLabel response
  let needs_retrieval := ["factual"].contains query_type
  let needs_web := ["web_current"].contains query_type
  let reasoning :=
    "Query classified as \x27" ++ query_type ++ "\x27. " ++
      (if needs_retrieval then "Will retrieve from knowledge base."
       else if needs_web then "Will search the web for current info."
       else "Will generate answer directly.")
  { state with
    query_type := query_type
    needs_retrieval := needs_retrieval
    needs_web_search := needs_web
    reasoning := reasoning
    iteration := state.iteration }

/-- The confidence computed from the distance list in `retrieve_documents`
(lines 161-165): `confidence = 0.0; if distances: confidence = 1 - (sum(distances) / len(distances))`. -/
def retrievalConfidence (distances : List ℚ) : ℚ :=
  if distances.isEmpty then 0
  else 1 - distances.sum / (distances.length : ℚ)

/-- NODE 2 `retrieve_documents` (lines 130-171). The vector store is
modelled by the oracle arguments: `count` is `self.collection.count()`,
`docs` and `distances` are the document list and cosine-distance list the
ChromaDB query returns for this query. -/
def retrieve_documents (count : Nat) (docs : List String) (distances : List ℚ)
    (state : AgentState) : AgentState :=
  if count = 0 then
    { state with retrieved_docs := [], confidence := 0 }
  else
    { state with
      retrieved_docs := docs
      confidence := retrievalConfidence distances }

/-- NODE 3 `web_search` (lines 173-195), the placeholder web search. -/
def web_search (state : AgentState) : AgentState :=
  { state with
    web_results :=
      ["[Web Search Placeholder] Results for: " ++ state.query,
       "Integrate Tavily API for real web search"]
    confidence := 1/2 }

/-- NODE 4 `check_quality` (lines 197-215). `if confidence < 0.3 and docs:`
with Python list truthiness (`docs` truthy iff non-empty). -/
def check_quality (state : AgentState) : AgentState :=
  if state.confidence < 3/10 ∧ state.retrieved_docs ≠ [] then
    { state with
      needs_retrieval := false
      reasoning := state.reasoning ++ " Low confidence in retrieval. Using LLM directly." }
  else state

/-- Context assembly in `generate_answer` (lines 226-239): labeled document
list, then labeled web-result list, joined with newlines; a fixed sentence
when both are empty. -/
def buildContext (docs web_results : List String) : String :=
  let context_parts :=
    (if docs.isEmpty then []
     else "Knowledge Base Context:" ::
       docs.enum.map (fun p => "[Doc " ++ toString (p.1 + 1) ++ "] " ++ p.2)) ++
    (if web_results.isEmpty then []
     else "\nWeb Search Results:" ::
       web_results.enum.map (fun p => "[Result " ++ toString (p.1 + 1) ++ "] " ++ p.2))
  if context_parts.isEmpty then "No specific context available."
  else String.intercalate "\n" context_parts

/-- System prompt for `query_type == "greeting"` (line 243). -/
def greetingSystemPrompt : String :=
  "You are a friendly assistant. Respond to greetings naturally and warmly."

/-- System prompt for `query_type == "calculation"` (line 246). -/
def calculationSystemPrompt : String :=
  "You are a helpful calculator. Solve the math problem accurately."

/-- System prompt for all other query types (lines 249-256). -/
def groundedSystemPrompt : String :=
  "You are a helpful assistant that answers questions accurately.\n\n" ++
  "Rules:\n- Use the provided context if available\n" ++
  "- If context doesn\x27t have the answer, say so politely\n" ++
  "- Be concise and accurate\n" ++
  "- Cite sources when using context (e.g., \"According to Doc 1...\")\n"

/-- The (system prompt, user prompt) pair `generate_answer` builds from the
state (lines 241-262). -/
def generatePrompts (state : AgentState) : String × String :=
  let context := buildContext state.retrieved_docs state.web_results
  if state.query_type = "greeting" then
    (greetingSystemPrompt, state.query)
  else if state.query_type = "calculation" then
    (calculationSystemPrompt, state.query)
  else
    (groundedSystemPrompt,
     "Context:\n" ++ context ++ "\n\nQuestion: " ++ state.query ++ "\n\nAnswer:")

/-- NODE 5 `generate_answer` (lines 217-280). The completion service is the
oracle `llm`, mapping (system prompt, user prompt) to the returned text. -/
def generate_answer (llm : String → String → String) (state : AgentState) : AgentState :=
  let prompts := generatePrompts state
  { state with answer := llm prompts.1 prompts.2 }

/-- `route_after_analysis` (lines 286-296). -/
def route_after_analysis (state : AgentState) : String :=
  if state.needs_retrieval then "retrieve"
  else if state.needs_web_search then "web_search"
  else "generate"

/-- `route_after_quality_check` (lines 298-304): always routes to generate. -/
def route_after_quality_check (_state : AgentState) : String :=
  "generate"

end AgenticRAG

/-- The nodes of the workflow graph built in `_build_workflow`
(lines 310-354). -/
inductive Node
  | analyze
  | retrieve
  | web_search
  | quality_check
  | generate
deriving Repr, DecidableEq

/-- Responses of the external services during one run: the classifier
completion content, the vector-store count and query result, and the
answer-generation completion. -/
structure Oracles where
  classifierResponse : String
  corpusCount : Nat
  queryDocs : List String
  queryDistances : List ℚ
  llm : String → String → String

/-- Execute one node function on the state (`workflow.add_node` bindings,
lines 318-322). -/
def applyNode (o : Oracles) : Node → AgentState → AgentState
  | .analyze, s => AgenticRAG.analyze_query o.classifierResponse s
  | .retrieve, s =>
      AgenticRAG.retrieve_documents o.corpusCount o.queryDocs o.queryDistances s
  | .web_search, s => AgenticRAG.web_search s
  | .quality_check, s => AgenticRAG.check_quality s
  | .generate, s => AgenticRAG.generate_answer o.llm s

/-- The edges of `_build_workflow` (lines 324-353): conditional edges out of
`analyze` keyed by `route_after_analysis`, `retrieve -> quality_check`,
conditional edge out of `quality_check` keyed by
`route_after_quality_check`, `web_search -> generate`, `generate -> END`.
`none` is END (or an unmapped routing label, which LangGraph would reject). -/
def nextNode : Node → AgentState → Option Node
  | .analyze, s =>
      let r := AgenticRAG.route_after_analysis s
      if r = "retrieve" then some .retrieve
      else if r = "web_search" then some .web_search
      else if r = "generate" then some .generate
      else none
  | .retrieve, _ => some .quality_check
  | .quality_check, s =>
      if AgenticRAG.route_after_quality_check s = "generate" then some .generate
      else none
  | .web_search, _ => some .generate
  | .generate, _ => none

/-- Run the workflow from a node: apply the node, then follow the edge out
of it, recording the list of visited nodes. The fuel bound is immaterial
for any value ≥ 4, the longest path in the graph. -/
def runFrom (o : Oracles) : Nat → Node → AgentState → List Node × AgentState
  | 0, _, s => ([], s)
  | Nat.succ fuel, n, s =>
      let s2 := applyNode o n s
      match nextNode n s2 with
      | none => ([n], s2)
      | some n2 =>
          let r := runFrom o fuel n2 s2
          (n :: r.1, r.2)

/-- The initial state built by `ask` (lines 386-397). -/
def mkInitialState (query : String) : AgentState :=
  { query := query
    query_type := ""
    needs_retrieval := false
    needs_web_search := false
    retrieved_docs := []
    web_results := []
    answer := ""
    confidence := 0
    reasoning := ""
    iteration := 0 }

/-- One full workflow invocation (`ask`, lines 379-412): run from the entry
point `analyze` on the fresh initial state, returning the visited-node
trace and the terminal state. -/
def run (o : Oracles) (query : String) : List Node × AgentState :=
  runFrom o 5 Node.analyze (mkInitialState query)

/-- `new` extends `old` on the right: the old reasoning trace is a prefix of
the new one (no prior content removed or overwritten). -/
def traceGrows (old new : String) : Bool :=
  old.data.isPrefixOf new.data

/-- A concrete state on the retrieval branch with low confidence and two
retrieved documents. -/
def sLowConf : AgentState :=
  { query := "q"
    query_type := "factual"
    needs_retrieval := true
    needs_web_search := false
    retrieved_docs := ["d1", "d2"]
    web_results := []
    answer := ""
    confidence := 1/4
    reasoning := "R."
    iteration := 0 }

/-- A concrete state carrying a non-empty prior reasoning trace. -/
def sPrior : AgentState :=
  { query := "q"
    query_type := ""
    needs_retrieval := false
    needs_web_search := false
    retrieved_docs := ["d"]
    web_results := []
    answer := ""
    confidence := 1/2
    reasoning := "Earlier trace entry."
    iteration := 0 }

/-- A concrete oracle assignment for the external services. -/
def oSample : Oracles :=
  { classifierResponse := "factual"
    corpusCount := 1
    queryDocs := ["doc"]
    queryDistances := [1/10]
    llm := fun _ _ => "an answer" }

namespace WorkflowLemmas

theorem isPrefixOf_append_self (l t : List Char) : l.isPrefixOf (l ++ t) = true := by
  induction l with
  | nil => simp [List.isPrefixOf]
  | cons a as ih => simp [List.isPrefixOf, ih]

theorem traceGrows_self (s : String) : traceGrows s s = true := by
  have h := isPrefixOf_append_self s.data []
  rw [List.append_nil] at h
  exact h

theorem traceGrows_append (s t : String) : traceGrows s (s ++ t) = true := by
  unfold traceGrows
  rw [String.data_append]
  exact isPrefixOf_append_self s.data t.data

theorem nextNode_analyze_retrieve (s : AgentState) (h : s.needs_retrieval = true) :
    nextNode Node.analyze s = some Node.retrieve := by
  simp [nextNode, AgenticRAG.route_after_analysis, h]

theorem nextNode_analyze_web (s : AgentState) (h1 : s.needs_retrieval = false)
    (h2 : s.needs_web_search = true) :
    nextNode Node.analyze s = some Node.web_search := by
  simp [nextNode, AgenticRAG.route_after_analysis, h1, h2]

theorem nextNode_analyze_generate (s : AgentState) (h1 : s.needs_retrieval = false)
    (h2 : s.needs_web_search = false) :
    nextNode Node.analyze s = some Node.generate := by
  simp [nextNode, AgenticRAG.route_after_analysis, h1, h2]

theorem nextNode_retrieve (s : AgentState) :
    nextNode Node.retrieve s = some Node.quality_check := rfl

theorem nextNode_quality_check (s : AgentState) :
    nextNode Node.quality_check s = some Node.generate := by
  simp [nextNode, AgenticRAG.route_after_quality_check]

theorem nextNode_web_search (s : AgentState) :
    nextNode Node.web_search s = some Node.generate := rfl

theorem nextNode_generate (s : AgentState) :
    nextNode Node.generate s = none := rfl

theorem runFrom_succ_of_some (o : Oracles) (fuel : Nat) (n n2 : Node) (s : AgentState)
    (h : nextNode n (applyNode o n s) = some n2) :
    runFrom o (fuel + 1) n s =
      (n :: (runFrom o fuel n2 (applyNode o n s)).1,
       (runFrom o fuel n2 (applyNode o n s)).2) := by
  simp [runFrom, h]

theorem runFrom_succ_of_none (o : Oracles) (fuel : Nat) (n : Node) (s : AgentState)
    (h : nextNode n (applyNode o n s) = none) :
    runFrom o (fuel + 1) n s = ([n], applyNode o n s) := by
  simp [runFrom, h]

/-- Closed form of one full workflow invocation: the branch taken is decided
by the flags the analyze node derives from the classifier response. -/
theorem run_eq (o : Oracles) (q : String) :
    run o q =
      (if (AgenticRAG.analyze_query o.classifierResponse (mkInitialState q)).needs_retrieval then
        ([Node.analyze, Node.retrieve, Node.quality_check, Node.generate],
         AgenticRAG.generate_answer o.llm (AgenticRAG.check_quality
           (AgenticRAG.retrieve_documents o.corpusCount o.queryDocs o.queryDistances
             (AgenticRAG.analyze_query o.classifierResponse (mkInitialState q)))))
      else if (AgenticRAG.analyze_query o.classifierResponse (mkInitialState q)).needs_web_search then
        ([Node.analyze, Node.web_search, Node.generate],
         AgenticRAG.generate_answer o.llm (AgenticRAG.web_search
           (AgenticRAG.analyze_query o.classifierResponse (mkInitialState q))))
      else
        ([Node.analyze, Node.generate],
         AgenticRAG.generate_answer o.llm
           (AgenticRAG.analyze_query o.classifierResponse (mkInitialState q)))) := by
  have ha : applyNode o Node.analyze (mkInitialState q)
      = AgenticRAG.analyze_query o.classifierResponse (mkInitialState q) := rfl
  cases hr : (AgenticRAG.analyze_query o.classifierResponse (mkInitialState q)).needs_retrieval with
  | true =>
      rw [run, runFrom_succ_of_some o 4 Node.analyze Node.retrieve (mkInitialState q)
          (by rw [ha]; exact nextNode_analyze_retrieve _ hr), ha]
      rw [runFrom_succ_of_some o 3 Node.retrieve Node.quality_check _ (nextNode_retrieve _)]
      rw [runFrom_succ_of_some o 2 Node.quality_check Node.generate _ (nextNode_quality_check _)]
      rw [runFrom_succ_of_none o 1 Node.generate _ (nextNode_generate _)]
      simp [hr, applyNode]
  | false =>
      cases hw : (AgenticRAG.analyze_query o.classifierResponse (mkInitialState q)).needs_web_search with
      | true =>
          rw [run, runFrom_succ_of_some o 4 Node.analyze Node.web_search (mkInitialState q)
              (by rw [ha]; exact nextNode_analyze_web _ hr hw), ha]
          rw [runFrom_succ_of_some o 3 Node.web_search Node.generate _ (nextNode_web_search _)]
          rw [runFrom_succ_of_none o 2 Node.generate _ (nextNode_generate _)]
          simp [hr, hw, applyNode]
      | false =>
          rw [run, runFrom_succ_of_some o 4 Node.analyze Node.generate (mkInitialState q)
              (by rw [ha]; exact nextNode_analyze_generate _ hr hw), ha]
          rw [runFrom_succ_of_none o 3 Node.generate _ (nextNode_generate _)]
          simp [hr, hw, applyNode]

end WorkflowLemmas

/-- Claim C1: QualityGate contract. For every state, if confidence < 0.3 and
the retrieved-document list is non-empty, `check_quality` returns the state
with `needs_retrieval = false`, the low-confidence fallback note appended to
the reasoning trace, and `retrieved_docs` unchanged (not cleared, same list
hence same length and order); otherwise (confidence ≥ 0.3 or no documents)
it returns the state unchanged. -/
theorem C1_quality_gate_contract (s : AgentState) :
    (s.confidence < 3/10 ∧ s.retrieved_docs ≠ [] →
      AgenticRAG.check_quality s =
        { s with
          needs_retrieval := false
          reasoning := s.reasoning ++ " Low confidence in retrieval. Using LLM directly." } ∧
      (AgenticRAG.check_quality s).retrieved_docs = s.retrieved_docs) ∧
    (3/10 ≤ s.confidence ∨ s.retrieved_docs = [] →
      AgenticRAG.check_quality s = s) := by
  constructor
  · intro h
    rw [AgenticRAG.check_quality, if_pos h]
    exact ⟨rfl, rfl⟩
  · intro h
    rw [AgenticRAG.check_quality, if_neg]
    rcases h with h | h
    · exact fun hc => absurd hc.1 (not_lt.mpr h)
    · exact fun hc => hc.2 h

/-- Witness for C1 at a concrete low-confidence state with two documents. -/
theorem C1_quality_gate_contract_witness :
    AgenticRAG.check_quality sLowConf =
      { sLowConf with
        needs_retrieval := false
        reasoning := sLowConf.reasoning ++ " Low confidence in retrieval. Using LLM directly." } ∧
    (AgenticRAG.check_quality sLowConf).retrieved_docs = sLowConf.retrieved_docs :=
  (C1_quality_gate_contract sLowConf).1 ⟨by norm_num [sLowConf], by simp [sLowConf]⟩

/-- Claim C2 is false of the code: `retrieve_documents` stores
`1 - mean(distances)` without clamping, so a distance list `[2]` (one
neighbor at cosine distance 2, i.e. anti-parallel embeddings) makes the
stored confidence -1, outside [0,1]. This contradicts the code's own state
documentation, which declares `confidence` to range over (0-1). -/
theorem C2_confidence_not_clamped :
    (AgenticRAG.retrieve_documents 1 ["d"] [2] (mkInitialState "q")).confidence = -1 ∧
    (AgenticRAG.retrieve_documents 1 ["d"] [2] (mkInitialState "q")).confidence < 0 := by
  constructor <;>
    norm_num [AgenticRAG.retrieve_documents, AgenticRAG.retrievalConfidence, mkInitialState]

/-- Claim C3: routing flag derivation. For every classifier response and
every input state, `needs_retrieval` is true exactly when the stored
`query_type` is "factual", `needs_web_search` is true exactly when it is
"web_current", and the two flags are never both true. -/
theorem C3_routing_flag_derivation (response : String) (s : AgentState) :
    ((AgenticRAG.analyze_query response s).needs_retrieval = true ↔
      (AgenticRAG.analyze_query response s).query_type = "factual") ∧
    ((AgenticRAG.analyze_query response s).needs_web_search = true ↔
      (AgenticRAG.analyze_query response s).query_type = "web_current") ∧
    ¬((AgenticRAG.analyze_query response s).needs_retrieval = true ∧
      (AgenticRAG.analyze_query response s).needs_web_search = true) := by
  refine ⟨?_, ?_, ?_⟩ <;> simp [AgenticRAG.analyze_query]
  intro h1 h2
  rw [h1] at h2
  exact absurd h2 (by decide)

/-- Claim C6: empty-corpus behavior. For every query result and every state,
when the backing collection count is 0, retrieval returns the state with an
empty document list and confidence 0 (a total function: no error path). -/
theorem C6_empty_corpus (docs : List String) (distances : List ℚ) (s : AgentState) :
    AgenticRAG.retrieve_documents 0 docs distances s
      = { s with retrieved_docs := [], confidence := 0 } := by
  simp [AgenticRAG.retrieve_documents]

/-- Claim C7: confidence formula. For every non-empty distance list returned
by the nearest-neighbor lookup (and non-empty corpus), the stored confidence
is 1 minus the arithmetic mean of the distances. -/
theorem C7_confidence_formula (count : Nat) (docs : List String) (distances : List ℚ)
    (s : AgentState) (hc : count ≠ 0) (hd : distances ≠ []) :
    (AgenticRAG.retrieve_documents count docs distances s).confidence
      = 1 - distances.sum / (distances.length : ℚ) := by
  rw [AgenticRAG.retrieve_documents, if_neg hc]
  show AgenticRAG.retrievalConfidence distances = _
  rw [AgenticRAG.retrievalConfidence, if_neg]
  simp [hd]

/-- Witness for C7: one neighbor at distance 1/10 gives confidence 9/10. -/
theorem C7_confidence_formula_witness :
    (AgenticRAG.retrieve_documents 1 ["d"] [1/10] (mkInitialState "q")).confidence
      = 1 - ([(1:ℚ)/10].sum / (([(1:ℚ)/10].length : Nat) : ℚ)) :=
  C7_confidence_formula 1 ["d"] [1/10] (mkInitialState "q") (by decide) (by simp)

/-- Claim C10: frame property of answer synthesis. For every completion
oracle and every state, `generate_answer` changes only the `answer` field;
all other nine state fields are returned unchanged. -/
theorem C10_generate_answer_frame (llm : String → String → String) (s : AgentState) :
    (AgenticRAG.generate_answer llm s).query = s.query ∧
    (AgenticRAG.generate_answer llm s).query_type = s.query_type ∧
    (AgenticRAG.generate_answer llm s).needs_retrieval = s.needs_retrieval ∧
    (AgenticRAG.generate_answer llm s).needs_web_search = s.needs_web_search ∧
    (AgenticRAG.generate_answer llm s).retrieved_docs = s.retrieved_docs ∧
    (AgenticRAG.generate_answer llm s).web_results = s.web_results ∧
    (AgenticRAG.generate_answer llm s).confidence = s.confidence ∧
    (AgenticRAG.generate_answer llm s).reasoning = s.reasoning ∧
    (AgenticRAG.generate_answer llm s).iteration = s.iteration :=
  ⟨rfl, rfl, rfl, rfl, rfl, rfl, rfl, rfl, rfl⟩

/-- Counterexample to claim C4: the classifier response "banana" normalizes
to "banana", which is none of the five known labels, yet `analyze_query`
stores it as the query type instead of falling back to "general": the
unrecognized label is propagated into the state. -/
theorem C4_unknown_label_counterexample :
    AgenticRAG.normalizeLabel "banana" ∉
      ["greeting", "factual", "calculation", "general", "web_current"] ∧
    (AgenticRAG.analyze_query "banana" (mkInitialState "q")).query_type ≠ "general" :=
  ⟨by decide, by decide⟩

/-- Claim C4 (amended): for every classifier response whose normalization is
not one of the five known labels, `analyze_query` stores the normalized raw
label itself as the query type (not "general"), and still yields
`needs_retrieval = false` and `needs_web_search = false`, so the query is
routed to direct generation. -/
theorem C4_unknown_label_fallback (response : String) (s : AgentState)
    (h : AgenticRAG.normalizeLabel response ∉
      ["greeting", "factual", "calculation", "general", "web_current"]) :
    (AgenticRAG.analyze_query response s).query_type = AgenticRAG.normalizeLabel response ∧
    (AgenticRAG.analyze_query response s).needs_retrieval = false ∧
    (AgenticRAG.analyze_query response s).needs_web_search = false := by
  have h1 : AgenticRAG.normalizeLabel response ≠ "factual" := by
    intro he; exact h (by rw [he]; simp)
  have h2 : AgenticRAG.normalizeLabel response ≠ "web_current" := by
    intro he; exact h (by rw [he]; simp)
  exact ⟨rfl, by simp [AgenticRAG.analyze_query, h1], by simp [AgenticRAG.analyze_query, h2]⟩

/-- Witness for (amended) C4 at the unrecognized response "banana". -/
theorem C4_unknown_label_fallback_witness :
    (AgenticRAG.analyze_query "banana" (mkInitialState "q")).query_type
      = AgenticRAG.normalizeLabel "banana" ∧
    (AgenticRAG.analyze_query "banana" (mkInitialState "q")).needs_retrieval = false ∧
    (AgenticRAG.analyze_query "banana" (mkInitialState "q")).needs_web_search = false :=
  C4_unknown_label_fallback "banana" (mkInitialState "q") (by decide)

/-- Claim C9: for every classifier response and state, if the normalized
label is not "factual" then `needs_retrieval` is false, and if it is not
"web_current" then `needs_web_search` is false; hence any unrecognized label
routes the query to direct generation with both flags false. -/
theorem C9_label_mismatch_flags (response : String) (s : AgentState) :
    (AgenticRAG.normalizeLabel response ≠ "factual" →
      (AgenticRAG.analyze_query response s).needs_retrieval = false) ∧
    (AgenticRAG.normalizeLabel response ≠ "web_current" →
      (AgenticRAG.analyze_query response s).needs_web_search = false) :=
  ⟨fun h => by simp [AgenticRAG.analyze_query, h],
   fun h => by simp [AgenticRAG.analyze_query, h]⟩

/-- Witness for C9 at the unrecognized response "chitchat". -/
theorem C9_label_mismatch_flags_witness :
    (AgenticRAG.analyze_query "chitchat" (mkInitialState "q")).needs_retrieval = false ∧
    (AgenticRAG.analyze_query "chitchat" (mkInitialState "q")).needs_web_search = false :=
  ⟨(C9_label_mismatch_flags "chitchat" (mkInitialState "q")).1 (by decide),
   (C9_label_mismatch_flags "chitchat" (mkInitialState "q")).2 (by decide)⟩

/-- Claim C5: workflow engine step order. Every run starts at analyze; the
visited-node trace is analyze-retrieve-quality_check-generate when the
analyze node sets `needs_retrieval`, analyze-web_search-generate when it
sets `needs_web_search` instead, and analyze-generate otherwise; the run
ends at generate; and no node is visited twice. -/
theorem C5_workflow_step_order (o : Oracles) (q : String) :
    (run o q).1.head? = some Node.analyze ∧
    (run o q).1 =
      (if (AgenticRAG.analyze_query o.classifierResponse (mkInitialState q)).needs_retrieval then
        [Node.analyze, Node.retrieve, Node.quality_check, Node.generate]
      else if (AgenticRAG.analyze_query o.classifierResponse (mkInitialState q)).needs_web_search then
        [Node.analyze, Node.web_search, Node.generate]
      else [Node.analyze, Node.generate]) ∧
    (run o q).1.getLast? = some Node.generate ∧
    (run o q).1.Nodup := by
  have h := WorkflowLemmas.run_eq o q
  cases hr : (AgenticRAG.analyze_query o.classifierResponse (mkInitialState q)).needs_retrieval with
  | true =>
      have ht : (run o q).1
          = [Node.analyze, Node.retrieve, Node.quality_check, Node.generate] := by
        rw [h]; simp [hr]
      exact ⟨by rw [ht]; rfl, by rw [ht]; simp [hr], by rw [ht]; rfl, by rw [ht]; decide⟩
  | false =>
      cases hw : (AgenticRAG.analyze_query o.classifierResponse (mkInitialState q)).needs_web_search with
      | true =>
          have ht : (run o q).1 = [Node.analyze, Node.web_search, Node.generate] := by
            rw [h]; simp [hr, hw]
          exact ⟨by rw [ht]; rfl, by rw [ht]; simp [hr, hw], by rw [ht]; rfl, by rw [ht]; decide⟩
      | false =>
          have ht : (run o q).1 = [Node.analyze, Node.generate] := by
            rw [h]; simp [hr, hw]
          exact ⟨by rw [ht]; rfl, by rw [ht]; simp [hr, hw], by rw [ht]; rfl, by rw [ht]; decide⟩

/-- Counterexample to claim C8: the reasoning trace is not one-entry-per-
node-visited and is not never-overwritten. First, `analyze_query` rebuilds
the reasoning from scratch: on a state carrying the prior entry
"Earlier trace entry." its output reasoning does not extend that prior
trace. Second, `retrieve_documents` is a visited node that appends no trace
entry at all: it returns the reasoning unchanged. -/
theorem C8_trace_counterexample :
    traceGrows sPrior.reasoning
      (AgenticRAG.analyze_query "greeting" sPrior).reasoning = false ∧
    (AgenticRAG.retrieve_documents 1 ["d2"] [1/10] sPrior).reasoning = sPrior.reasoning :=
  ⟨by decide, by decide⟩

/-- Claim C8 (amended): the reasoning trace grows monotonically — each node
returns a reasoning that extends its input reasoning as a prefix — for the
retrieve, web_search, quality_check and generate nodes unconditionally, and
for analyze whenever its input trace is empty, as it is at analyze's
position at the start of every run (the `ask` initial state); analyze
rebuilds the trace from scratch, and only analyze and the low-confidence
branch of quality_check append entries. -/
theorem C8_trace_append_only (o : Oracles) (n : Node) (s : AgentState)
    (h : n = Node.analyze → s.reasoning = "") :
    traceGrows s.reasoning (applyNode o n s).reasoning = true := by
  cases n with
  | analyze =>
      rw [h rfl]
      simp [traceGrows, List.isPrefixOf]
  | retrieve =>
      have he : (applyNode o Node.retrieve s).reasoning = s.reasoning := by
        rw [applyNode, AgenticRAG.retrieve_documents]
        split <;> rfl
      rw [he]
      exact WorkflowLemmas.traceGrows_self _
  | web_search =>
      exact WorkflowLemmas.traceGrows_self _
  | quality_check =>
      rw [applyNode, AgenticRAG.check_quality]
      split
      · exact WorkflowLemmas.traceGrows_append _ _
      · exact WorkflowLemmas.traceGrows_self _
  | generate =>
      exact WorkflowLemmas.traceGrows_self _

/-- Witness for (amended) C8: the quality gate on a concrete low-confidence
state extends the prior reasoning trace. -/
theorem C8_trace_append_only_witness :
    traceGrows sPrior.reasoning
      (applyNode oSample Node.quality_check sPrior).reasoning = true :=
  C8_trace_append_only oSample Node.quality_check sPrior (fun hc => Node.noConfusion hc)

/-- Witness for C3 at the concrete classifier response "factual". -/
theorem C3_routing_flag_derivation_witness :
    ((AgenticRAG.analyze_query "factual" (mkInitialState "qw")).needs_retrieval = true ↔
      (AgenticRAG.analyze_query "factual" (mkInitialState "qw")).query_type = "factual") ∧
    ((AgenticRAG.analyze_query "factual" (mkInitialState "qw")).needs_web_search = true ↔
      (AgenticRAG.analyze_query "factual" (mkInitialState "qw")).query_type = "web_current") ∧
    ¬((AgenticRAG.analyze_query "factual" (mkInitialState "qw")).needs_retrieval = true ∧
      (AgenticRAG.analyze_query "factual" (mkInitialState "qw")).needs_web_search = true) :=
  C3_routing_flag_derivation "factual" (mkInitialState "qw")
